import Mathlib

/-!
Verification development for the seds_timeline summarization pipeline and its
framework mount adapters.  The core pipeline (severity classification,
ingestion, critical extraction, timeline building, snapshot assembly) is
embedded as executable Lean definitions; the React/Vue/Angular mount bindings
are embedded as explicit state-passing functions.  Timestamps are modelled as
integers counting hours; `clinical_event_days` is converted to hours with a
factor of 24.
-/

namespace SedsTimeline

open List

/-- JSON values, the raw input format of `summarize_bundle`.  Timestamps are
modelled as integer numbers of hours. -/
inductive Json where
  | null : Json
  | bool (b : Bool) : Json
  | num (n : Int) : Json
  | str (s : String) : Json
  | arr (xs : List Json) : Json
  | obj (fields : List (String × Json)) : Json

/-- Five-level severity scale, `critical > high > moderate > low > info`. -/
inductive Severity where
  | critical | high | moderate | low | info
deriving DecidableEq, Repr

/-- Numeric rank witnessing the total order on `Severity`
(`critical > high > moderate > low > info`). -/
def Severity.rank : Severity → Nat
  | .critical => 4
  | .high => 3
  | .moderate => 2
  | .low => 1
  | .info => 0

/-- Timeline event categories from the published schema. -/
inductive EventCategory where
  | Encounter | Procedure | Condition | Medication | Observation
  | Document | Note | Other
deriving DecidableEq, Repr

/-- Supported resource kinds of the tagged intermediate record. -/
inductive ResourceKind where
  | Encounter | Procedure | Condition | AllergyIntolerance | Medication
  | Observation | Document | Note | Other
deriving DecidableEq, Repr

/-- Structure `CriticalItem` from the published schema: label, nullable detail,
severity. -/
structure CriticalItem where
  label : String
  detail : Option String
  severity : Severity
deriving DecidableEq, Repr

/-- Structure `VitalSnapshot` from the published schema. -/
structure VitalSnapshot where
  name : String
  value : String
  recorded_at : Option Int
deriving DecidableEq, Repr

/-- Structure `ResourceReference` from the published schema. -/
structure ResourceReference where
  system : Option String
  reference : Option String
  display : Option String
deriving DecidableEq, Repr

/-- Structure `TimelineEvent` from the published schema. -/
structure TimelineEvent where
  id : String
  category : EventCategory
  title : String
  detail : Option String
  occurred_at : Option Int
  severity : Severity
  source : Option ResourceReference
deriving DecidableEq, Repr

/-- Structure `CriticalSummary` from the published schema. -/
structure CriticalSummary where
  allergies : List CriticalItem
  medications : List CriticalItem
  chronic_conditions : List CriticalItem
  code_status : Option String
  alerts : List CriticalItem
  recent_vitals : List VitalSnapshot
deriving DecidableEq, Repr

/-- Structure `TimelineSnapshot` from the published schema; `generated_at` is the
wall-clock reading at call time. -/
structure TimelineSnapshot where
  generated_at : Int
  critical : CriticalSummary
  events : List TimelineEvent
deriving DecidableEq, Repr

/-- Structure `SummarizeConfig`: the two recency windows (hours and days). -/
structure SummarizeConfig where
  vital_recent_hours : Int
  clinical_event_days : Int
deriving DecidableEq, Repr

/-- The single typed error of the pipeline. -/
inductive SummarizeError where
  | malformedBundle
deriving DecidableEq, Repr

/-- Modelled from the spec: `ClassifiedResource`, the tagged intermediate
record produced by the ResourceIngestor (the Rust `timeline-core` crate is not
in the repository sources; only its TypeScript declarations are).  Carries the
stable id, normalized common fields, and the kind-specific payload used
downstream (classifier input, vital-sign data, chronic / high-alert /
resuscitation / flag markers, back-reference). -/
structure ClassifiedResource where
  kind : ResourceKind
  rid : String
  status : Option String
  timestamp : Option Int
  display : Option String
  detail : Option String
  coded : Option String
  isVital : Bool
  vitalName : String
  vitalValue : String
  isChronic : Bool
  isHighAlert : Bool
  isResus : Bool
  isFlag : Bool
  src : Option ResourceReference
deriving DecidableEq, Repr

/-- Field lookup in the field list of a JSON object (first match wins). -/
def lookupField (fields : List (String × Json)) (key : String) : Option Json :=
  match fields with
  | [] => none
  | (k, v) :: rest => if k = key then some v else lookupField rest key

/-- Lookup of a string-valued field. -/
def lookupStr (fields : List (String × Json)) (key : String) : Option String :=
  match lookupField fields key with
  | some (Json.str s) => some s
  | _ => none

/-- Lookup of a numeric field. -/
def lookupNum (fields : List (String × Json)) (key : String) : Option Int :=
  match lookupField fields key with
  | some (Json.num n) => some n
  | _ => none

/-- Lookup of a boolean flag, absent meaning `false`. -/
def boolField (fields : List (String × Json)) (key : String) : Bool :=
  match lookupField fields key with
  | some (Json.bool b) => b
  | _ => false

/-- Modelled from the spec: mapping of the `resourceType` discriminator to the
supported resource kinds (MedicationStatement/Request both map to
Medication; everything unrecognized maps to Other). -/
def kindOfString (s : String) : ResourceKind :=
  if s = "Encounter" then .Encounter
  else if s = "Procedure" then .Procedure
  else if s = "Condition" then .Condition
  else if s = "AllergyIntolerance" then .AllergyIntolerance
  else if s = "MedicationStatement" then .Medication
  else if s = "MedicationRequest" then .Medication
  else if s = "Observation" then .Observation
  else if s = "DocumentReference" then .Document
  else if s = "Note" then .Note
  else .Other

/-- Modelled from the spec (§4.1): the mapping table of the SeverityClassifier.
AllergyIntolerance.criticality: high→critical, low→moderate, absent→moderate,
anything else (including unable-to-assess)→info.  Observation.interpretation:
critical-range→critical, abnormal-high/low→high, else→info.
Condition.severity: severe→high, other coded→low, absent→info.
All remaining kinds and values→info. -/
def classify (kind : ResourceKind) (coded : Option String) : Severity :=
  match kind with
  | .AllergyIntolerance =>
    match coded with
    | none => .moderate
    | some v =>
      if v = "high" then .critical
      else if v = "low" then .moderate
      else .info
  | .Observation =>
    match coded with
    | none => .info
    | some v =>
      if v = "critical-range" then .critical
      else if v = "abnormal-high" then .high
      else if v = "abnormal-low" then .high
      else .info
  | .Condition =>
    match coded with
    | none => .info
    | some v => if v = "severe" then .high else .low
  | _ => .info

/-- Modelled from the spec: the classifier input extracted per kind
(criticality for allergies, interpretation for observations, coded severity
for conditions). -/
def codedFor (kind : ResourceKind) (fields : List (String × Json)) : Option String :=
  match kind with
  | .AllergyIntolerance => lookupStr fields "criticality"
  | .Observation => lookupStr fields "interpretation"
  | .Condition => lookupStr fields "severity"
  | _ => none

/-- Modelled from the spec (§4.2): per-entry classification.  An entry lacking
the `resourceType` or `id` fields is dropped silently; an unrecognized kind is
tagged `Other` and retained only when it carries a usable timestamp. -/
def classifyEntry (j : Json) : Option ClassifiedResource :=
  match j with
  | Json.obj fields =>
    match lookupStr fields "resourceType", lookupStr fields "id" with
    | some rt, some rid =>
      let kind := kindOfString rt
      let ts := lookupNum fields "timestamp"
      if kind = .Other && ts.isNone then none
      else
        some
          { kind := kind
            rid := rid
            status := lookupStr fields "status"
            timestamp := ts
            display := lookupStr fields "display"
            detail := lookupStr fields "detail"
            coded := codedFor kind fields
            isVital := boolField fields "vital"
            vitalName := (lookupStr fields "vitalName").getD ""
            vitalValue := (lookupStr fields "vitalValue").getD ""
            isChronic := boolField fields "chronic"
            isHighAlert := boolField fields "highAlert"
            isResus := boolField fields "resuscitation"
            isFlag := boolField fields "flag"
            src := some { system := none, reference := some rid,
                          display := lookupStr fields "display" } }
    | _, _ => none
  | _ => none

/-- Modelled from the spec (§4.2): the bundle envelope check.  Returns the
entry list when the top-level value is an object carrying the
`resourceType: "Bundle"` discriminator and an `entry` array; `none`
otherwise. -/
def entriesOf : Json → Option (List Json)
  | Json.obj fields =>
    if lookupStr fields "resourceType" = some "Bundle" then
      match lookupField fields "entry" with
      | some (Json.arr es) => some es
      | _ => none
    else none
  | _ => none

/-- Modelled from the spec (§4.2): the ResourceIngestor.  The single hard
failure point of the pipeline: fails with `MalformedBundle` exactly when the
envelope check fails; otherwise classifies every entry, dropping unusable ones
silently, preserving the entry order of the bundle. -/
def ingest (bundle : Json) : Except SummarizeError (List ClassifiedResource) :=
  match entriesOf bundle with
  | some es => .ok (es.filterMap classifyEntry)
  | none => .error .malformedBundle

/-- Modelled from the spec: a resource is active when its status code is
`active`. -/
def isActive (r : ClassifiedResource) : Bool :=
  decide (r.status = some "active")

/-- Modelled from the spec (§4.3): a CriticalItem built from an active
AllergyIntolerance; severity via the shared classifier table. -/
def allergyItem (r : ClassifiedResource) : CriticalItem :=
  { label := r.display.getD r.rid, detail := r.detail,
    severity := classify r.kind r.coded }

/-- Modelled from the spec (§4.3): a CriticalItem built from an active
medication resource; severity moderate, escalated to high for resources
flagged high-alert. -/
def medItem (r : ClassifiedResource) : CriticalItem :=
  { label := r.display.getD r.rid, detail := r.detail,
    severity := if r.isHighAlert then .high else .moderate }

/-- Modelled from the spec (§4.3): a CriticalItem built from an active chronic
Condition; severity via the shared classifier table. -/
def condItem (r : ClassifiedResource) : CriticalItem :=
  { label := r.display.getD r.rid, detail := r.detail,
    severity := classify r.kind r.coded }

/-- Modelled from the spec (§4.3): alert sources are out-of-range Observations
and explicit flag resources. -/
def isAlertSource (r : ClassifiedResource) : Bool :=
  (decide (r.kind = ResourceKind.Observation) &&
    (decide (r.coded = some "abnormal-high") ||
     decide (r.coded = some "abnormal-low") ||
     decide (r.coded = some "critical-range"))) || r.isFlag

/-- Modelled from the spec (§4.3): a CriticalItem synthesized for an alert;
severity via the Observation interpretation codes. -/
def alertItem (r : ClassifiedResource) : CriticalItem :=
  { label := r.display.getD r.rid, detail := r.detail,
    severity := classify .Observation r.coded }

/-- Modelled from the spec (§4.3): `b` is strictly later than `a` for the
code-status tie-break (latest timestamp wins; a dated directive beats an
undated one; otherwise the earlier-ingested one is kept). -/
def laterDirective (a b : ClassifiedResource) : Bool :=
  match a.timestamp, b.timestamp with
  | some ta, some tb => decide (ta < tb)
  | none, some _ => true
  | _, none => false

/-- Modelled from the spec (§4.3): the most recent resuscitation-directive
text, or none when no directive-bearing resource exists. -/
def codeStatus (cs : List ClassifiedResource) : Option String :=
  ((cs.filter fun r => r.isResus).foldl
    (fun acc r =>
      match acc with
      | none => some r
      | some b => if laterDirective b r then some r else some b)
    none).map fun r => r.display.getD r.rid

/-- Modelled from the spec (§4.3): a vital-sign Observation qualifies for
`recent_vitals` when its timestamp lies within `vital_recent_hours` of the
generation time (undated vitals never qualify). -/
def vitalQualifies (cfg : SummarizeConfig) (now : Int) (r : ClassifiedResource) : Bool :=
  decide (r.kind = ResourceKind.Observation) && r.isVital &&
    (match r.timestamp with
     | some t => decide (now - t ≤ cfg.vital_recent_hours)
     | none => false)

/-- Timestamp key used to compare qualifying vitals (qualifying vitals always
carry a timestamp). -/
def tsOf (r : ClassifiedResource) : Int :=
  r.timestamp.getD 0

/-- Rendering of a classified vital Observation as a `VitalSnapshot`. -/
def toVitalSnapshot (r : ClassifiedResource) : VitalSnapshot :=
  { name := r.vitalName, value := r.vitalValue, recorded_at := r.timestamp }

/-- Modelled from the spec (§4.3): among the qualifying vitals carrying the
given name, the most recent by timestamp, ties broken by ingestion order
(the earlier-ingested one is kept on equal timestamps). -/
def bestFor (nm : String) : List ClassifiedResource → Option ClassifiedResource
  | [] => none
  | r :: rs =>
    let rest := bestFor nm rs
    if r.vitalName = nm then
      match rest with
      | none => some r
      | some b => if tsOf r < tsOf b then some b else some r
    else rest

/-- Modelled from the spec (§4.3): `recent_vitals` — qualifying vitals grouped
by vital name, one entry per distinct name, each reflecting the best
qualifying observation of that name. -/
def recentVitals (cs : List ClassifiedResource) (cfg : SummarizeConfig) (now : Int) :
    List VitalSnapshot :=
  let qual := cs.filter (vitalQualifies cfg now)
  ((qual.map fun r => r.vitalName).dedup).filterMap fun nm =>
    (bestFor nm qual).map toVitalSnapshot

/-- Modelled from the spec (§4.3): the CriticalExtractor. -/
def extract (cs : List ClassifiedResource) (cfg : SummarizeConfig) (now : Int) :
    CriticalSummary :=
  { allergies :=
      (cs.filter fun r => decide (r.kind = ResourceKind.AllergyIntolerance) && isActive r).map
        allergyItem
    medications :=
      (cs.filter fun r => decide (r.kind = ResourceKind.Medication) && isActive r).map medItem
    chronic_conditions :=
      (cs.filter fun r =>
        decide (r.kind = ResourceKind.Condition) && isActive r && r.isChronic).map condItem
    code_status := codeStatus cs
    alerts := (cs.filter isAlertSource).map alertItem
    recent_vitals := recentVitals cs cfg now }

/-- Printable name of a resource kind, used in the deterministic event id. -/
def kindName : ResourceKind → String
  | .Encounter => "Encounter"
  | .Procedure => "Procedure"
  | .Condition => "Condition"
  | .AllergyIntolerance => "AllergyIntolerance"
  | .Medication => "Medication"
  | .Observation => "Observation"
  | .Document => "Document"
  | .Note => "Note"
  | .Other => "Other"

/-- Event category of a resource kind. -/
def categoryOf : ResourceKind → EventCategory
  | .Encounter => .Encounter
  | .Procedure => .Procedure
  | .Condition => .Condition
  | .AllergyIntolerance => .Other
  | .Medication => .Medication
  | .Observation => .Observation
  | .Document => .Document
  | .Note => .Note
  | .Other => .Other

/-- Modelled from the spec (§4.4): the normalized timeline event of a
classified resource; the id is derived deterministically from resource kind
and resource identifier. -/
def toEvent (r : ClassifiedResource) : TimelineEvent :=
  { id := kindName r.kind ++ "/" ++ r.rid
    category := categoryOf r.kind
    title := r.display.getD r.rid
    detail := r.detail
    occurred_at := r.timestamp
    severity := classify r.kind r.coded
    source := r.src }

/-- Modelled from the spec (§4.4): timeline eligibility — Encounter,
Procedure, Condition, Medication, Document, Note always; Observation only when
not a routine vital (those feed `recent_vitals`); Other only with a timestamp;
AllergyIntolerance feeds the critical summary only. -/
def eligible (r : ClassifiedResource) : Bool :=
  match r.kind with
  | .Encounter => true
  | .Procedure => true
  | .Condition => true
  | .Medication => true
  | .Document => true
  | .Note => true
  | .Observation => !r.isVital
  | .AllergyIntolerance => false
  | .Other => r.timestamp.isSome

/-- Modelled from the spec (§4.4): the recency window for timeline events —
resources with no timestamp are always retained; a dated resource is kept when
its age at generation time is at most `clinical_event_days` (counted in
hours via the factor 24). -/
def windowKeep (cfg : SummarizeConfig) (now : Int) (r : ClassifiedResource) : Bool :=
  match r.timestamp with
  | none => true
  | some t => decide (now - t ≤ cfg.clinical_event_days * 24)

/-- Modelled from the spec (§4.4): the in-window eligible events, in
ingestion order. -/
def buildCandidates (cs : List ClassifiedResource) (cfg : SummarizeConfig) (now : Int) :
    List TimelineEvent :=
  (cs.filter fun r => eligible r && windowKeep cfg now r).map toEvent

/-- Modelled from the spec (§3 dedup invariant): drop every event whose id was
already seen, keeping the first occurrence in ingestion order. -/
def dedupById (seen : List String) : List TimelineEvent → List TimelineEvent
  | [] => []
  | e :: es =>
    if e.id ∈ seen then dedupById seen es
    else e :: dedupById (e.id :: seen) es

/-- Sort key of a timeline event (undated events bypass the sort). -/
def eventKey (e : TimelineEvent) : Int :=
  e.occurred_at.getD 0

/-- Descending comparison on event keys, the sorting relation. -/
def eventGE (a b : TimelineEvent) : Prop :=
  eventKey b ≤ eventKey a

instance : DecidableRel eventGE :=
  fun a b => Int.decLe (eventKey b) (eventKey a)

instance : IsTotal TimelineEvent eventGE :=
  ⟨fun a b => Int.le_total (eventKey b) (eventKey a)⟩

instance : IsTrans TimelineEvent eventGE :=
  ⟨fun _ _ _ h₁ h₂ => le_trans h₂ h₁⟩

/-- Modelled from the spec (§3 ordering invariant): dated events sorted by
timestamp descending (stable), undated events after all dated ones in their
original relative order. -/
def sortEvents (evs : List TimelineEvent) : List TimelineEvent :=
  List.insertionSort eventGE (evs.filter fun e => e.occurred_at.isSome) ++
    evs.filter fun e => !e.occurred_at.isSome

/-- Modelled from the spec (§4.4): the TimelineBuilder. -/
def build (cs : List ClassifiedResource) (cfg : SummarizeConfig) (now : Int) :
    List TimelineEvent :=
  sortEvents (dedupById [] (buildCandidates cs cfg now))

/-- Rendering of a severity as its schema string. -/
def Severity.toStr : Severity → String
  | .critical => "critical"
  | .high => "high"
  | .moderate => "moderate"
  | .low => "low"
  | .info => "info"

/-- JSON encoding of a nullable string: absent values are emitted as an
explicit `null`, never dropped. -/
def encodeOptStr : Option String → Json
  | none => Json.null
  | some s => Json.str s

/-- JSON encoding of a nullable timestamp: absent values are emitted as an
explicit `null`, never dropped. -/
def encodeOptInt : Option Int → Json
  | none => Json.null
  | some n => Json.num n

/-- JSON encoding of a `CriticalItem` per the published schema; the nullable
`detail` key is always present. -/
def CriticalItem.toJson (it : CriticalItem) : Json :=
  Json.obj
    [("label", Json.str it.label),
     ("detail", encodeOptStr it.detail),
     ("severity", Json.str it.severity.toStr)]

/-- JSON encoding of a `VitalSnapshot` per the published schema. -/
def VitalSnapshot.toJson (v : VitalSnapshot) : Json :=
  Json.obj
    [("name", Json.str v.name),
     ("value", Json.str v.value),
     ("recorded_at", encodeOptInt v.recorded_at)]

/-- JSON encoding of a `CriticalSummary` per the published schema; the five
sequence fields are always emitted as arrays. -/
def CriticalSummary.toJson (c : CriticalSummary) : Json :=
  Json.obj
    [("allergies", Json.arr (c.allergies.map CriticalItem.toJson)),
     ("medications", Json.arr (c.medications.map CriticalItem.toJson)),
     ("chronic_conditions", Json.arr (c.chronic_conditions.map CriticalItem.toJson)),
     ("code_status", encodeOptStr c.code_status),
     ("alerts", Json.arr (c.alerts.map CriticalItem.toJson)),
     ("recent_vitals", Json.arr (c.recent_vitals.map VitalSnapshot.toJson))]

/-- The field list of a JSON object (empty for non-objects). -/
def Json.fieldsOf : Json → List (String × Json)
  | Json.obj fields => fields
  | _ => []

/-- Modelled from the spec (§4.5, §6): the public entry point
`summarize_bundle` (the Rust/WASM implementation is absent from the
repository sources; only its TypeScript declaration is).  The wall-clock
reading is made explicit as the `now` argument. -/
def summarize (bundle : Json) (cfg : SummarizeConfig) (now : Int) :
    Except SummarizeError TimelineSnapshot :=
  match ingest bundle with
  | .ok cs =>
    .ok { generated_at := now, critical := extract cs cfg now, events := build cs cfg now }
  | .error e => .error e

/-- The `mount(selector, snapshot)`-shaped implementation type registered in
an adapter bindings module; the result type `α` stands for whatever the host
implementation produces (e.g. a DOM effect trace). -/
def MountImpl (α : Type) : Type :=
  String → TimelineSnapshot → α

/-- Embedding of `setMountImplementation` from the React and Vue bindings
modules: stores the given implementation in the module-level slot. -/
def setMountImplementation {α : Type} (fn : MountImpl α) : Option (MountImpl α) :=
  some fn

/-- Error message thrown by the React bindings module when no implementation
is registered. -/
def reactMountErrorMsg : String :=
  "mountTimelineView chưa được cấu hình. Gọi setMountImplementation với wasm mount_timeline_view trước."

/-- Error message thrown by the Vue bindings module when no implementation is
registered. -/
def vueMountErrorMsg : String :=
  "mountTimelineView chưa được cấu hình cho Vue. Gọi setMountImplementation trước."

/-- Embedding of `mountTimelineView` from the React bindings module
(`examples/ui-tests/react/src/bindings.ts`): throws when no implementation is
registered, otherwise invokes the registered implementation once with the
given selector and snapshot. -/
def reactMountTimelineView {α : Type} (implementation : Option (MountImpl α))
    (selector : String) (snapshot : TimelineSnapshot) : Except String α :=
  match implementation with
  | none => .error reactMountErrorMsg
  | some impl => .ok (impl selector snapshot)

/-- Embedding of `mountTimelineView` from the Vue bindings module: same
behavior as the React one, with the Vue error message. -/
def vueMountTimelineView {α : Type} (implementation : Option (MountImpl α))
    (selector : String) (snapshot : TimelineSnapshot) : Except String α :=
  match implementation with
  | none => .error vueMountErrorMsg
  | some impl => .ok (impl selector snapshot)

/-- Modelled from the spec: `mountTimelineView` of the Angular bindings module
(the module itself is absent from the repository sources; only the Angular
component that imports it and its test are present).  Same shape as the React
and Vue bindings. -/
def angularMountTimelineView {α : Type} (implementation : Option (MountImpl α))
    (selector : String) (snapshot : TimelineSnapshot) : Except String α :=
  match implementation with
  | none => .error "mountTimelineView not configured"
  | some impl => .ok (impl selector snapshot)

/-- Embedding of the mount effect of `TimelineReact`
(`examples/ui-tests/react/src/TimelineReact.tsx`): the `useEffect` body calls
`mountTimelineView` with the selector built from the host element id and the
snapshot prop. -/
def timelineReactMount {α : Type} (implementation : Option (MountImpl α))
    (elementId : String) (snapshot : TimelineSnapshot) : Except String α :=
  reactMountTimelineView implementation ("#" ++ elementId) snapshot

/-- Embedding of the `onMounted` hook of `TimelineVue`: calls
`mountTimelineView` with the selector built from the generated element id and
the snapshot prop. -/
def timelineVueMount {α : Type} (implementation : Option (MountImpl α))
    (elementId : String) (snapshot : TimelineSnapshot) : Except String α :=
  vueMountTimelineView implementation ("#" ++ elementId) snapshot

/-- Embedding of `TimelineAngularComponent.ensureId`: keeps the existing host
element id when nonempty, otherwise assigns the generated one. -/
def ensureId (elementId generated : String) : String :=
  if elementId = "" then generated else elementId

/-- Embedding of `TimelineAngularComponent.ngAfterViewInit`: calls
`mountTimelineView` with the selector built from the (ensured) host element id
and the snapshot input. -/
def ngAfterViewInit {α : Type} (implementation : Option (MountImpl α))
    (hostElementId generated : String) (snapshot : TimelineSnapshot) : Except String α :=
  angularMountTimelineView implementation ("#" ++ ensureId hostElementId generated) snapshot

/-! ### Helper lemmas about the pipeline stages -/

theorem dedupById_sublist (es : List TimelineEvent) :
    ∀ seen, dedupById seen es <+ es := by
  induction es with
  | nil => intro seen; simp [dedupById]
  | cons e es ih =>
    intro seen
    unfold dedupById
    by_cases h : e.id ∈ seen
    · simp only [if_pos h]
      exact (ih seen).trans (List.sublist_cons_self e es)
    · simp only [if_neg h]
      exact (ih (e.id :: seen)).cons₂ e

theorem mem_dedupById {x : TimelineEvent} {seen : List String}
    {es : List TimelineEvent} (h : x ∈ dedupById seen es) : x ∈ es :=
  (dedupById_sublist es seen).mem h

theorem dedupById_spec (es : List TimelineEvent) :
    ∀ seen, (∀ x ∈ dedupById seen es, x.id ∉ seen) ∧
      ((dedupById seen es).map (fun e => e.id)).Nodup := by
  induction es with
  | nil => intro seen; simp [dedupById]
  | cons e es ih =>
    intro seen
    unfold dedupById
    by_cases h : e.id ∈ seen
    · simpa only [if_pos h] using ih seen
    · simp only [if_neg h]
      obtain ⟨ihmem, ihnodup⟩ := ih (e.id :: seen)
      refine ⟨?_, ?_⟩
      · intro x hx
        rcases List.mem_cons.mp hx with rfl | hx
        · exact h
        · intro hxs
          exact ihmem x hx (List.mem_cons_of_mem _ hxs)
      · refine List.nodup_cons.mpr ⟨?_, ihnodup⟩
        intro hmem
        rcases List.mem_map.mp hmem with ⟨y, hy, hid⟩
        exact ihmem y hy (hid ▸ List.mem_cons_self _ _)

theorem sortEvents_perm (evs : List TimelineEvent) : sortEvents evs ~ evs := by
  unfold sortEvents
  calc
    List.insertionSort eventGE (evs.filter fun e => e.occurred_at.isSome) ++
        evs.filter (fun e => !e.occurred_at.isSome)
      ~ (evs.filter fun e => e.occurred_at.isSome) ++
          evs.filter (fun e => !e.occurred_at.isSome) :=
        (List.perm_insertionSort _ _).append_right _
    _ ~ evs := List.filter_append_perm _ evs

theorem mem_sortEvents {x : TimelineEvent} {evs : List TimelineEvent} :
    x ∈ sortEvents evs ↔ x ∈ evs :=
  (sortEvents_perm evs).mem_iff

theorem mem_build_candidates {e : TimelineEvent} {cs : List ClassifiedResource}
    {cfg : SummarizeConfig} {now : Int} (h : e ∈ build cs cfg now) :
    ∃ r ∈ cs, (eligible r && windowKeep cfg now r) = true ∧ e = toEvent r := by
  have h₁ : e ∈ dedupById [] (buildCandidates cs cfg now) :=
    mem_sortEvents.mp h
  have h₂ : e ∈ buildCandidates cs cfg now := mem_dedupById h₁
  unfold buildCandidates at h₂
  rcases List.mem_map.mp h₂ with ⟨r, hr, rfl⟩
  rcases List.mem_filter.mp hr with ⟨hrc, hcond⟩
  exact ⟨r, hrc, hcond, rfl⟩

theorem bestFor_mem {nm : String} :
    ∀ {xs : List ClassifiedResource} {r : ClassifiedResource},
      bestFor nm xs = some r → r ∈ xs := by
  intro xs
  induction xs with
  | nil => intro r h; simp [bestFor] at h
  | cons x xs ih =>
    intro r h
    unfold bestFor at h
    by_cases hx : x.vitalName = nm
    · simp only [if_pos hx] at h
      cases hrest : bestFor nm xs with
      | none =>
        rw [hrest] at h
        simp only at h
        cases h
        exact List.mem_cons_self _ _
      | some b =>
        rw [hrest] at h
        simp only at h
        by_cases hts : tsOf x < tsOf b
        · rw [if_pos hts] at h
          cases h
          exact List.mem_cons_of_mem _ (ih hrest)
        · rw [if_neg hts] at h
          cases h
          exact List.mem_cons_self _ _
    · simp only [if_neg hx] at h
      exact List.mem_cons_of_mem _ (ih h)

theorem bestFor_name {nm : String} :
    ∀ {xs : List ClassifiedResource} {r : ClassifiedResource},
      bestFor nm xs = some r → r.vitalName = nm := by
  intro xs
  induction xs with
  | nil => intro r h; simp [bestFor] at h
  | cons x xs ih =>
    intro r h
    unfold bestFor at h
    by_cases hx : x.vitalName = nm
    · simp only [if_pos hx] at h
      cases hrest : bestFor nm xs with
      | none =>
        rw [hrest] at h
        simp only at h
        cases h
        exact hx
      | some b =>
        rw [hrest] at h
        simp only at h
        by_cases hts : tsOf x < tsOf b
        · rw [if_pos hts] at h
          cases h
          exact ih hrest
        · rw [if_neg hts] at h
          cases h
          exact hx
    · simp only [if_neg hx] at h
      exact ih h

theorem bestFor_ne_none {nm : String} :
    ∀ {xs : List ClassifiedResource} {c : ClassifiedResource},
      c ∈ xs → c.vitalName = nm → bestFor nm xs ≠ none := by
  intro xs
  induction xs with
  | nil => intro c hc; cases hc
  | cons y ys ih =>
    intro c hc hcn
    unfold bestFor
    by_cases hy : y.vitalName = nm
    · simp only [if_pos hy]
      cases bestFor nm ys with
      | none => simp
      | some b => by_cases hts : tsOf y < tsOf b <;> simp [hts]
    · simp only [if_neg hy]
      rcases List.mem_cons.mp hc with rfl | hc
      · exact absurd hcn hy
      · exact ih hc hcn

theorem bestFor_max {nm : String} :
    ∀ {xs : List ClassifiedResource} {r : ClassifiedResource},
      bestFor nm xs = some r →
        ∀ c ∈ xs, c.vitalName = nm → tsOf c ≤ tsOf r := by
  intro xs
  induction xs with
  | nil => intro r h; simp [bestFor] at h
  | cons x xs ih =>
    intro r h c hc hcn
    unfold bestFor at h
    by_cases hx : x.vitalName = nm
    · simp only [if_pos hx] at h
      cases hrest : bestFor nm xs with
      | none =>
        rw [hrest] at h
        simp only at h
        cases h
        rcases List.mem_cons.mp hc with rfl | hc
        · exact le_refl _
        · exact absurd hrest (bestFor_ne_none hc hcn)
      | some b =>
        rw [hrest] at h
        simp only at h
        rcases List.mem_cons.mp hc with rfl | hc
        · by_cases hts : tsOf c < tsOf b
          · rw [if_pos hts] at h
            cases h
            exact le_of_lt hts
          · rw [if_neg hts] at h
            cases h
            exact le_refl _
        · have hcb : tsOf c ≤ tsOf b := ih hrest c hc hcn
          by_cases hts : tsOf x < tsOf b
          · rw [if_pos hts] at h
            cases h
            exact hcb
          · rw [if_neg hts] at h
            cases h
            exact le_trans hcb (le_of_not_lt hts)
    · simp only [if_neg hx] at h
      rcases List.mem_cons.mp hc with rfl | hc
      · exact absurd hcn hx
      · exact ih h c hc hcn

theorem bestFor_split {nm : String} :
    ∀ {xs : List ClassifiedResource} {b : ClassifiedResource},
      bestFor nm xs = some b →
        ∃ pre post, xs = pre ++ b :: post ∧
          (∀ c ∈ pre, c.vitalName = nm → tsOf c < tsOf b) ∧
          (∀ c ∈ post, c.vitalName = nm → tsOf c ≤ tsOf b) := by
  intro xs
  induction xs with
  | nil => intro b h; simp [bestFor] at h
  | cons r rs ih =>
    intro b h
    unfold bestFor at h
    by_cases hx : r.vitalName = nm
    · simp only [if_pos hx] at h
      cases hrest : bestFor nm rs with
      | none =>
        rw [hrest] at h
        simp only at h
        cases h
        refine ⟨[], rs, rfl, by simp, ?_⟩
        intro c hc hcn
        exact absurd hrest (bestFor_ne_none hc hcn)
      | some bb =>
        rw [hrest] at h
        simp only at h
        by_cases hts : tsOf r < tsOf bb
        · rw [if_pos hts] at h
          cases h
          rcases ih hrest with ⟨pre, post, rfl, hpre, hpost⟩
          refine ⟨r :: pre, post, rfl, ?_, hpost⟩
          intro c hc hcn
          rcases List.mem_cons.mp hc with rfl | hc
          · exact hts
          · exact hpre c hc hcn
        · rw [if_neg hts] at h
          cases h
          refine ⟨[], rs, rfl, by simp, ?_⟩
          intro c hc hcn
          exact le_trans (bestFor_max hrest c hc hcn) (le_of_not_lt hts)
    · simp only [if_neg hx] at h
      rcases ih h with ⟨pre, post, rfl, hpre, hpost⟩
      refine ⟨r :: pre, post, rfl, ?_, hpost⟩
      intro c hc hcn
      rcases List.mem_cons.mp hc with rfl | hc
      · exact absurd hcn hx
      · exact hpre c hc hcn

theorem mem_recentVitals {v : VitalSnapshot} {cs : List ClassifiedResource}
    {cfg : SummarizeConfig} {now : Int} (h : v ∈ recentVitals cs cfg now) :
    ∃ r ∈ cs, vitalQualifies cfg now r = true ∧ v = toVitalSnapshot r := by
  unfold recentVitals at h
  rcases List.mem_filterMap.mp h with ⟨nm, _, hbest⟩
  rcases Option.map_eq_some'.mp hbest with ⟨r, hr, rfl⟩
  have hmem := bestFor_mem hr
  rcases List.mem_filter.mp hmem with ⟨hrc, hq⟩
  exact ⟨r, hrc, hq, rfl⟩

/-- The pairwise ordering claimed of `events`: whenever both sides carry a
timestamp, the earlier-listed one is at least as recent. -/
def occGE (a b : TimelineEvent) : Prop :=
  ∀ ta tb, a.occurred_at = some ta → b.occurred_at = some tb → tb ≤ ta

/-- The pairwise placement claimed of `events`: an undated event is never
followed by a dated one. -/
def undatedAfter (a b : TimelineEvent) : Prop :=
  a.occurred_at = none → b.occurred_at = none

theorem occ_none_of_mem_undated {e : TimelineEvent} {l : List TimelineEvent}
    (h : e ∈ l.filter fun x => !x.occurred_at.isSome) : e.occurred_at = none := by
  rcases List.mem_filter.mp h with ⟨-, hb⟩
  cases he : e.occurred_at with
  | none => rfl
  | some t => rw [he] at hb; simp at hb

theorem occ_isSome_of_mem_dated {e : TimelineEvent} {l : List TimelineEvent}
    (h : e ∈ List.insertionSort eventGE (l.filter fun x => x.occurred_at.isSome)) :
    e.occurred_at.isSome = true := by
  have := (List.mem_insertionSort _).mp h
  exact (List.mem_filter.mp this).2

theorem sortEvents_pairwise_occGE (l : List TimelineEvent) :
    (sortEvents l).Pairwise occGE := by
  unfold sortEvents
  rw [List.pairwise_append]
  refine ⟨?_, ?_, ?_⟩
  · have hs : List.Sorted eventGE
        (List.insertionSort eventGE (l.filter fun e => e.occurred_at.isSome)) :=
      List.sorted_insertionSort eventGE _
    refine hs.imp ?_
    intro a b hab ta tb hta htb
    unfold eventGE eventKey at hab
    rw [hta, htb] at hab
    simpa using hab
  · refine List.pairwise_of_forall_mem_list ?_
    intro a ha b _ ta tb hta htb
    rw [occ_none_of_mem_undated ha] at hta
    cases hta
  · intro a _ b hb ta tb hta htb
    rw [occ_none_of_mem_undated hb] at htb
    cases htb

theorem sortEvents_pairwise_undatedAfter (l : List TimelineEvent) :
    (sortEvents l).Pairwise undatedAfter := by
  unfold sortEvents
  rw [List.pairwise_append]
  refine ⟨?_, ?_, ?_⟩
  · refine List.pairwise_of_forall_mem_list ?_
    intro a ha b _ hnone
    have hsome := occ_isSome_of_mem_dated ha
    rw [hnone] at hsome
    cases hsome
  · refine List.pairwise_of_forall_mem_list ?_
    intro a _ b hb _
    exact occ_none_of_mem_undated hb
  · intro a _ b hb _
    exact occ_none_of_mem_undated hb

theorem sortEvents_filter_none (l : List TimelineEvent) :
    ((sortEvents l).filter fun e => e.occurred_at.isNone) =
      l.filter fun e => !e.occurred_at.isSome := by
  unfold sortEvents
  rw [List.filter_append]
  have h1 : ((List.insertionSort eventGE
      (l.filter fun e => e.occurred_at.isSome)).filter fun e => e.occurred_at.isNone) = [] := by
    rw [List.filter_eq_nil_iff]
    intro a ha
    have hsome := occ_isSome_of_mem_dated ha
    cases hao : a.occurred_at with
    | none => rw [hao] at hsome; cases hsome
    | some t => simp [hao]
  have h2 : ((l.filter fun e => !e.occurred_at.isSome).filter
      fun e => e.occurred_at.isNone) = l.filter fun e => !e.occurred_at.isSome := by
    rw [List.filter_eq_self]
    intro a ha
    rw [occ_none_of_mem_undated ha]
    rfl
  rw [h1, h2, List.nil_append]

theorem mem_filterMap_best_names {qual : List ClassifiedResource} :
    ∀ {names : List String} {x : VitalSnapshot},
      x ∈ (names.filterMap fun nm => (bestFor nm qual).map toVitalSnapshot) →
        x.name ∈ names := by
  intro names
  induction names with
  | nil => intro x hx; cases hx
  | cons nm rest ih =>
    intro x hx
    rw [List.filterMap_cons] at hx
    cases hbest : bestFor nm qual with
    | none =>
      rw [hbest] at hx
      exact List.mem_cons_of_mem _ (ih hx)
    | some r =>
      rw [hbest] at hx
      simp only [Option.map_some'] at hx
      rcases List.mem_cons.mp hx with rfl | hx
      · have := bestFor_name hbest
        simp [toVitalSnapshot, this]
      · exact List.mem_cons_of_mem _ (ih hx)

theorem filterMap_best_names_nodup (qual : List ClassifiedResource) :
    ∀ (names : List String), names.Nodup →
      (((names.filterMap fun nm => (bestFor nm qual).map toVitalSnapshot)).map
        fun v => v.name).Nodup := by
  intro names
  induction names with
  | nil => intro _; simp
  | cons nm rest ih =>
    intro hnd
    rcases List.nodup_cons.mp hnd with ⟨hnm, hrest⟩
    rw [List.filterMap_cons]
    cases hbest : bestFor nm qual with
    | none => exact ih hrest
    | some r =>
      simp only [Option.map_some']
      rw [List.map_cons]
      refine List.nodup_cons.mpr ⟨?_, ih hrest⟩
      intro hmem
      rcases List.mem_map.mp hmem with ⟨y, hy, hid⟩
      have hyn : y.name ∈ rest := mem_filterMap_best_names hy
      have : (toVitalSnapshot r).name = nm := by
        have := bestFor_name hbest
        simp [toVitalSnapshot, this]
      rw [hid, this] at hyn
      exact hnm hyn

theorem recentVitals_names_nodup (cs : List ClassifiedResource)
    (cfg : SummarizeConfig) (now : Int) :
    ((recentVitals cs cfg now).map fun v => v.name).Nodup := by
  unfold recentVitals
  exact filterMap_best_names_nodup _ _ (List.nodup_dedup _)

/-! ### Concrete data used by the witnesses and counterexamples -/

/-- Configuration used by the concrete examples: 24-hour vital window,
365-day clinical event window. -/
def wCfg : SummarizeConfig :=
  { vital_recent_hours := 24, clinical_event_days := 365 }

/-- A well-formed concrete bundle: one active high-criticality allergy, two
same-name vital Observations (99 and 90, i.e. 1 and 10 hours before the
generation time 100), one active chronic Condition, one Encounter, one
unknown-kind dated entry, and one non-object entry. -/
def wBundle : Json :=
  Json.obj
    [("resourceType", Json.str "Bundle"),
     ("entry", Json.arr
       [Json.obj
          [("resourceType", Json.str "AllergyIntolerance"), ("id", Json.str "a1"),
           ("status", Json.str "active"), ("criticality", Json.str "high"),
           ("display", Json.str "Penicillin")],
        Json.obj
          [("resourceType", Json.str "Observation"), ("id", Json.str "v1"),
           ("status", Json.str "final"), ("timestamp", Json.num 99),
           ("vital", Json.bool true), ("vitalName", Json.str "HR"),
           ("vitalValue", Json.str "80")],
        Json.obj
          [("resourceType", Json.str "Observation"), ("id", Json.str "v2"),
           ("status", Json.str "final"), ("timestamp", Json.num 90),
           ("vital", Json.bool true), ("vitalName", Json.str "HR"),
           ("vitalValue", Json.str "70")],
        Json.obj
          [("resourceType", Json.str "Condition"), ("id", Json.str "c1"),
           ("status", Json.str "active"), ("severity", Json.str "severe"),
           ("chronic", Json.bool true), ("timestamp", Json.num 95),
           ("display", Json.str "Diabetes")],
        Json.obj
          [("resourceType", Json.str "Encounter"), ("id", Json.str "e1"),
           ("timestamp", Json.num 97), ("display", Json.str "ER visit")],
        Json.obj
          [("resourceType", Json.str "Foo"), ("id", Json.str "f1"),
           ("timestamp", Json.num 96)],
        Json.num 5])]

/-- The classified resources of `wBundle`. -/
def wCs : List ClassifiedResource :=
  ((entriesOf wBundle).getD []).filterMap classifyEntry

/-- The snapshot of `wBundle` at generation time 100. -/
def wSnap : TimelineSnapshot :=
  { generated_at := 100, critical := extract wCs wCfg 100, events := build wCs wCfg 100 }

/-- A directly-given active classified allergy with low criticality. -/
def wAllergy : ClassifiedResource :=
  { kind := .AllergyIntolerance, rid := "a9", status := some "active",
    timestamp := none, display := some "Latex", detail := none,
    coded := some "low", isVital := false, vitalName := "", vitalValue := "",
    isChronic := false, isHighAlert := false, isResus := false, isFlag := false,
    src := none }

/-- A concrete bundle holding a single vital Observation dated 0, used to
separate two calls made at different generation times. -/
def c3Bundle : Json :=
  Json.obj
    [("resourceType", Json.str "Bundle"),
     ("entry", Json.arr
       [Json.obj
          [("resourceType", Json.str "Observation"), ("id", Json.str "v1"),
           ("status", Json.str "final"), ("timestamp", Json.num 0),
           ("vital", Json.bool true), ("vitalName", Json.str "HR"),
           ("vitalValue", Json.str "80")]])]

/-- A minimal bundle holding exactly the recent-vitals scenario of the spec: two
same-name vital Observations dated 99 and 90 (1 and 10 hours before the
generation time 100). -/
def c7Bundle : Json :=
  Json.obj
    [("resourceType", Json.str "Bundle"),
     ("entry", Json.arr
       [Json.obj
          [("resourceType", Json.str "Observation"), ("id", Json.str "v1"),
           ("status", Json.str "final"), ("timestamp", Json.num 99),
           ("vital", Json.bool true), ("vitalName", Json.str "HR"),
           ("vitalValue", Json.str "80")],
        Json.obj
          [("resourceType", Json.str "Observation"), ("id", Json.str "v2"),
           ("status", Json.str "final"), ("timestamp", Json.num 90),
           ("vital", Json.bool true), ("vitalName", Json.str "HR"),
           ("vitalValue", Json.str "70")]])]

/-- A minimal bundle exercising the tie-break: two same-name vital
Observations with equal timestamps 99 and distinct values, ingested in the
order value 80 then value 70. -/
def c7TieBundle : Json :=
  Json.obj
    [("resourceType", Json.str "Bundle"),
     ("entry", Json.arr
       [Json.obj
          [("resourceType", Json.str "Observation"), ("id", Json.str "v1"),
           ("status", Json.str "final"), ("timestamp", Json.num 99),
           ("vital", Json.bool true), ("vitalName", Json.str "HR"),
           ("vitalValue", Json.str "80")],
        Json.obj
          [("resourceType", Json.str "Observation"), ("id", Json.str "v2"),
           ("status", Json.str "final"), ("timestamp", Json.num 99),
           ("vital", Json.bool true), ("vitalName", Json.str "HR"),
           ("vitalValue", Json.str "70")]])]

theorem summarize_ok_eq {B : Json} {cfg : SummarizeConfig} {now : Int}
    {cs : List ClassifiedResource} {s : TimelineSnapshot}
    (hin : ingest B = .ok cs) (hs : summarize B cfg now = .ok s) :
    s = { generated_at := now, critical := extract cs cfg now,
          events := build cs cfg now } := by
  simp only [summarize, hin, Except.ok.injEq] at hs
  exact hs.symm

/-! ### Claim theorems -/

/-- C1: `summarize` either returns a complete snapshot or fails with the
single error `MalformedBundle`; it fails exactly when the input is not an
object, lacks the `resourceType: "Bundle"` discriminator, or its `entry`
field is not an array; in particular the empty object yields
`MalformedBundle`; no partial snapshot accompanies a failure. -/
theorem C1_malformed_bundle (B : Json) (cfg : SummarizeConfig) (now : Int) :
    ((∃ s, summarize B cfg now = .ok s) ∨
      summarize B cfg now = .error .malformedBundle) ∧
    (summarize B cfg now = .error .malformedBundle ↔
      ¬ ∃ fields entries, B = Json.obj fields ∧
          lookupStr fields "resourceType" = some "Bundle" ∧
          lookupField fields "entry" = some (Json.arr entries)) ∧
    summarize (Json.obj []) cfg now = .error .malformedBundle := by
  refine ⟨?_, ⟨?_, ?_⟩, rfl⟩
  · cases h : summarize B cfg now with
    | ok s => exact Or.inl ⟨s, rfl⟩
    | error e => cases e; exact Or.inr rfl
  · intro herr hex
    rcases hex with ⟨fields, entries, rfl, hrt, hen⟩
    simp [summarize, ingest, entriesOf, hrt, hen] at herr
  · intro hnex
    have hred : entriesOf B = none := by
      cases B with
      | obj fields =>
        simp only [entriesOf]
        by_cases hrt : lookupStr fields "resourceType" = some "Bundle"
        · rw [if_pos hrt]
          cases hen : lookupField fields "entry" with
          | some v =>
            cases v with
            | arr es => exact absurd ⟨fields, es, rfl, hrt, hen⟩ hnex
            | null => rfl
            | bool b => rfl
            | num n => rfl
            | str s => rfl
            | obj fs => rfl
          | none => rfl
        · rw [if_neg hrt]
      | null => rfl
      | bool b => rfl
      | num n => rfl
      | str s => rfl
      | arr xs => rfl
    simp [summarize, ingest, hred]

/-- C9: each framework adapter (React, Vue, Angular) forwards the snapshot it
receives unchanged to the registered `mount(selector, snapshot)`-shaped
function, exactly once, with a selector of the form `#<host element id>`. -/
theorem C9_adapters_forward {α : Type} (f : MountImpl α)
    (elementId hostId generated : String) (snapshot : TimelineSnapshot) :
    timelineReactMount (setMountImplementation f) elementId snapshot =
        Except.ok (f ("#" ++ elementId) snapshot) ∧
    timelineVueMount (setMountImplementation f) elementId snapshot =
        Except.ok (f ("#" ++ elementId) snapshot) ∧
    ngAfterViewInit (setMountImplementation f) hostId generated snapshot =
        Except.ok (f ("#" ++ ensureId hostId generated) snapshot) :=
  ⟨rfl, rfl, rfl⟩

/-- C10: in each adapter bindings module, `mountTimelineView` fails on every
call made with no registered implementation, and once `setMountImplementation`
has registered `f`, every call invokes `f` exactly once with the given
selector and snapshot unchanged. -/
theorem C10_bindings_gate {α : Type} (f : MountImpl α) (selector : String)
    (snapshot : TimelineSnapshot) :
    reactMountTimelineView (none : Option (MountImpl α)) selector snapshot =
        Except.error reactMountErrorMsg ∧
    vueMountTimelineView (none : Option (MountImpl α)) selector snapshot =
        Except.error vueMountErrorMsg ∧
    reactMountTimelineView (setMountImplementation f) selector snapshot =
        Except.ok (f selector snapshot) ∧
    vueMountTimelineView (setMountImplementation f) selector snapshot =
        Except.ok (f selector snapshot) :=
  ⟨rfl, rfl, rfl, rfl⟩

/-- C5 counterexample: the claim maps every absent coded input to `info`, but
the classifier maps an AllergyIntolerance with absent criticality to
`moderate` (per the mapping table stated in the spec itself). -/
theorem C5_counterexample :
    classify ResourceKind.AllergyIntolerance none = Severity.moderate ∧
    classify ResourceKind.AllergyIntolerance none ≠ Severity.info :=
  ⟨rfl, by decide⟩

/-- C5 amended: the classifier is total; unknown coded input maps to `info`
except Condition, where any non-`severe` coded value maps to `low`; absent
coded input maps to `info` except AllergyIntolerance, where it maps to
`moderate`; AllergyIntolerance criticality `high` maps to `critical` and
`low` to `moderate`, and a CriticalItem built from an active
AllergyIntolerance carries exactly the severity given by the classifier. -/
theorem C5_classifier_amended (k : ResourceKind) (v : String)
    (h1 : v ≠ "high") (h2 : v ≠ "low") (h3 : v ≠ "critical-range")
    (h4 : v ≠ "abnormal-high") (h5 : v ≠ "abnormal-low") (h6 : v ≠ "severe")
    (cs : List ClassifiedResource) (cfg : SummarizeConfig) (now : Int)
    (r : ClassifiedResource) (hr : r ∈ cs)
    (hk : r.kind = ResourceKind.AllergyIntolerance) (ha : isActive r = true) :
    (k ≠ ResourceKind.Condition → classify k (some v) = Severity.info) ∧
    classify ResourceKind.Condition (some v) = Severity.low ∧
    (k ≠ ResourceKind.AllergyIntolerance → classify k none = Severity.info) ∧
    classify ResourceKind.AllergyIntolerance none = Severity.moderate ∧
    classify ResourceKind.AllergyIntolerance (some "high") = Severity.critical ∧
    classify ResourceKind.AllergyIntolerance (some "low") = Severity.moderate ∧
    ∃ it ∈ (extract cs cfg now).allergies,
      it.severity = classify ResourceKind.AllergyIntolerance r.coded := by
  refine ⟨?_, ?_, ?_, rfl, rfl, rfl, ?_⟩
  · intro hkc
    cases k <;> simp_all [classify]
  · simp [classify, h6]
  · intro hka
    cases k <;> simp_all [classify]
  · refine ⟨allergyItem r, ?_, ?_⟩
    · unfold extract
      refine List.mem_map_of_mem allergyItem (List.mem_filter.mpr ⟨hr, ?_⟩)
      simp [hk, ha]
    · unfold allergyItem
      rw [hk]

/-- C5 witness: the amended classifier facts instantiated at the unknown code
`"banana"`, the kind `Encounter`, and a concrete active low-criticality
allergy. -/
theorem C5_classifier_witness :
    (ResourceKind.Encounter ≠ ResourceKind.Condition →
      classify ResourceKind.Encounter (some "banana") = Severity.info) ∧
    classify ResourceKind.Condition (some "banana") = Severity.low ∧
    (ResourceKind.Encounter ≠ ResourceKind.AllergyIntolerance →
      classify ResourceKind.Encounter none = Severity.info) ∧
    classify ResourceKind.AllergyIntolerance none = Severity.moderate ∧
    classify ResourceKind.AllergyIntolerance (some "high") = Severity.critical ∧
    classify ResourceKind.AllergyIntolerance (some "low") = Severity.moderate ∧
    ∃ it ∈ (extract [wAllergy] wCfg 100).allergies,
      it.severity = classify ResourceKind.AllergyIntolerance wAllergy.coded :=
  C5_classifier_amended ResourceKind.Encounter "banana"
    (by decide) (by decide) (by decide) (by decide) (by decide) (by decide)
    [wAllergy] wCfg 100 wAllergy (List.mem_singleton.mpr rfl) rfl rfl

/-- C2: in every snapshot returned by `summarize`, dated events are ordered by
`occurred_at` descending, undated events all come after the dated ones, and
the undated events keep their relative ingestion order (they form a
subsequence of the ingestion-ordered event list). -/
theorem C2_event_ordering (B : Json) (cfg : SummarizeConfig) (now : Int)
    (cs : List ClassifiedResource) (s : TimelineSnapshot)
    (hin : ingest B = .ok cs) (hs : summarize B cfg now = .ok s) :
    s.events.Pairwise occGE ∧ s.events.Pairwise undatedAfter ∧
      (s.events.filter fun e => e.occurred_at.isNone) <+ cs.map toEvent := by
  have hseq := summarize_ok_eq hin hs
  subst hseq
  refine ⟨sortEvents_pairwise_occGE _, sortEvents_pairwise_undatedAfter _, ?_⟩
  show ((build cs cfg now).filter fun e => e.occurred_at.isNone) <+ cs.map toEvent
  unfold build
  rw [sortEvents_filter_none]
  have h1 : ((dedupById [] (buildCandidates cs cfg now)).filter
      fun e => !e.occurred_at.isSome) <+ dedupById [] (buildCandidates cs cfg now) :=
    List.filter_sublist _
  have h2 : dedupById [] (buildCandidates cs cfg now) <+ buildCandidates cs cfg now :=
    dedupById_sublist _ _
  have h3 : buildCandidates cs cfg now <+ cs.map toEvent := by
    unfold buildCandidates
    exact (List.filter_sublist cs).map toEvent
  exact (h1.trans h2).trans h3

/-- C2 witness: the ordering conclusions at the concrete bundle `wBundle`,
generation time 100. -/
theorem C2_event_ordering_witness :
    wSnap.events.Pairwise occGE ∧ wSnap.events.Pairwise undatedAfter ∧
      (wSnap.events.filter fun e => e.occurred_at.isNone) <+ wCs.map toEvent :=
  C2_event_ordering wBundle wCfg 100 wCs wSnap rfl rfl

/-- C4: in every snapshot returned by `summarize`, the deterministic event ids
(resource kind + resource identifier) are pairwise distinct: no resource
identifier appears more than once in `events`. -/
theorem C4_unique_event_ids (B : Json) (cfg : SummarizeConfig) (now : Int)
    (cs : List ClassifiedResource) (s : TimelineSnapshot)
    (hin : ingest B = .ok cs) (hs : summarize B cfg now = .ok s) :
    (s.events.map fun e => e.id).Nodup := by
  have hseq := summarize_ok_eq hin hs
  subst hseq
  show ((build cs cfg now).map fun e => e.id).Nodup
  unfold build
  have hperm :=
    (sortEvents_perm (dedupById [] (buildCandidates cs cfg now))).map fun e => e.id
  exact hperm.symm.nodup (dedupById_spec (buildCandidates cs cfg now) []).2

/-- C4 witness: distinct event ids at the concrete bundle `wBundle`. -/
theorem C4_unique_event_ids_witness :
    (wSnap.events.map fun e => e.id).Nodup :=
  C4_unique_event_ids wBundle wCfg 100 wCs wSnap rfl rfl

/-- C6: in every snapshot returned by `summarize`, every dated event is at
most `clinical_event_days` (in hours, factor 24) old at generation time;
undated resources are exempt from (never excluded by) the window; and every
`recent_vitals` entry is at most `vital_recent_hours` old at generation
time. -/
theorem C6_window_bound (B : Json) (cfg : SummarizeConfig) (now : Int)
    (cs : List ClassifiedResource) (s : TimelineSnapshot)
    (hin : ingest B = .ok cs) (hs : summarize B cfg now = .ok s) :
    (∀ e ∈ s.events, ∀ t, e.occurred_at = some t →
        now - t ≤ cfg.clinical_event_days * 24) ∧
    (∀ r : ClassifiedResource, r.timestamp = none → windowKeep cfg now r = true) ∧
    (∀ v ∈ s.critical.recent_vitals, ∀ t, v.recorded_at = some t →
        now - t ≤ cfg.vital_recent_hours) := by
  have hseq := summarize_ok_eq hin hs
  subst hseq
  refine ⟨?_, ?_, ?_⟩
  · intro e he t ht
    rcases mem_build_candidates he with ⟨r, -, hcond, rfl⟩
    have hw : windowKeep cfg now r = true := (Bool.and_eq_true_iff.mp hcond).2
    have hocc : r.timestamp = some t := ht
    unfold windowKeep at hw
    rw [hocc] at hw
    exact of_decide_eq_true hw
  · intro r hr
    unfold windowKeep
    rw [hr]
  · intro v hv t ht
    rcases mem_recentVitals hv with ⟨r, -, hq, rfl⟩
    have hts : r.timestamp = some t := ht
    unfold vitalQualifies at hq
    rw [hts] at hq
    exact of_decide_eq_true (Bool.and_eq_true_iff.mp hq).2

/-- C6 witness: the window bounds at the concrete bundle `wBundle`. -/
theorem C6_window_bound_witness :
    (∀ e ∈ wSnap.events, ∀ t, e.occurred_at = some t →
        (100 : Int) - t ≤ wCfg.clinical_event_days * 24) ∧
    (∀ r : ClassifiedResource, r.timestamp = none → windowKeep wCfg 100 r = true) ∧
    (∀ v ∈ wSnap.critical.recent_vitals, ∀ t, v.recorded_at = some t →
        (100 : Int) - t ≤ wCfg.vital_recent_hours) :=
  C6_window_bound wBundle wCfg 100 wCs wSnap rfl rfl

/-- C7: in every snapshot returned by `summarize`, `recent_vitals` holds at
most one entry per distinct vital name; the retained entry is at least as
recent as any qualifying same-name observation; the retained entry is the
first qualifying observation in ingestion order achieving the maximal
same-name timestamp (every earlier-ingested same-name candidate is strictly
older, every later-ingested one no newer — ties broken by ingestion order);
the concrete two-observation spec scenario (1-hour and 10-hour-old same-name
vitals, 24-hour window) yields exactly the 1-hour-old value; and the concrete
equal-timestamp scenario retains the earlier-ingested value. -/
theorem C7_recent_vitals (B : Json) (cfg : SummarizeConfig) (now : Int)
    (cs : List ClassifiedResource) (s : TimelineSnapshot)
    (hin : ingest B = .ok cs) (hs : summarize B cfg now = .ok s) :
    ((s.critical.recent_vitals.map fun v => v.name).Nodup) ∧
    (∀ v ∈ s.critical.recent_vitals, ∀ r ∈ cs,
        vitalQualifies cfg now r = true → r.vitalName = v.name →
          ∀ t tv, r.timestamp = some t → v.recorded_at = some tv → t ≤ tv) ∧
    (∀ v ∈ s.critical.recent_vitals, ∃ pre b post,
        cs.filter (vitalQualifies cfg now) = pre ++ b :: post ∧
        v = toVitalSnapshot b ∧ b.vitalName = v.name ∧
        (∀ c ∈ pre, c.vitalName = v.name → tsOf c < tsOf b) ∧
        (∀ c ∈ post, c.vitalName = v.name → tsOf c ≤ tsOf b)) ∧
    ((summarize c7Bundle wCfg 100).map fun s => s.critical.recent_vitals) =
      Except.ok [{ name := "HR", value := "80", recorded_at := some 99 }] ∧
    ((summarize c7TieBundle wCfg 100).map fun s => s.critical.recent_vitals) =
      Except.ok [{ name := "HR", value := "80", recorded_at := some 99 }] := by
  have hseq := summarize_ok_eq hin hs
  subst hseq
  refine ⟨recentVitals_names_nodup cs cfg now, ?_, ?_, rfl, rfl⟩
  · intro v hv r hr hq hname t tv ht htv
    have hv' : v ∈ recentVitals cs cfg now := hv
    unfold recentVitals at hv'
    rcases List.mem_filterMap.mp hv' with ⟨nm, -, hf⟩
    rcases Option.map_eq_some'.mp hf with ⟨b, hb, rfl⟩
    have hbname : b.vitalName = nm := bestFor_name hb
    have hrq : r ∈ cs.filter (vitalQualifies cfg now) :=
      List.mem_filter.mpr ⟨hr, hq⟩
    have hrnm : r.vitalName = nm := by
      have : (toVitalSnapshot b).name = b.vitalName := rfl
      rw [hname, this, hbname]
    have hmax : tsOf r ≤ tsOf b := bestFor_max hb r hrq hrnm
    have htb : b.timestamp = some tv := htv
    unfold tsOf at hmax
    rw [ht, htb] at hmax
    simpa using hmax
  · intro v hv
    have hv' : v ∈ recentVitals cs cfg now := hv
    unfold recentVitals at hv'
    rcases List.mem_filterMap.mp hv' with ⟨nm, -, hf⟩
    rcases Option.map_eq_some'.mp hf with ⟨b, hb, rfl⟩
    have hbname : b.vitalName = nm := bestFor_name hb
    have hvname : (toVitalSnapshot b).name = nm := hbname
    rcases bestFor_split hb with ⟨pre, post, hsplit, hpre, hpost⟩
    refine ⟨pre, b, post, hsplit, rfl, rfl, ?_, ?_⟩
    · intro c hc hcn
      exact hpre c hc (hcn.trans hvname)
    · intro c hc hcn
      exact hpost c hc (hcn.trans hvname)

/-- C7 witness: the recent-vitals conclusions at the concrete bundle
`wBundle`. -/
theorem C7_recent_vitals_witness :
    ((wSnap.critical.recent_vitals.map fun v => v.name).Nodup) ∧
    (∀ v ∈ wSnap.critical.recent_vitals, ∀ r ∈ wCs,
        vitalQualifies wCfg 100 r = true → r.vitalName = v.name →
          ∀ t tv, r.timestamp = some t → v.recorded_at = some tv → t ≤ tv) ∧
    (∀ v ∈ wSnap.critical.recent_vitals, ∃ pre b post,
        wCs.filter (vitalQualifies wCfg 100) = pre ++ b :: post ∧
        v = toVitalSnapshot b ∧ b.vitalName = v.name ∧
        (∀ c ∈ pre, c.vitalName = v.name → tsOf c < tsOf b) ∧
        (∀ c ∈ post, c.vitalName = v.name → tsOf c ≤ tsOf b)) ∧
    ((summarize c7Bundle wCfg 100).map fun s => s.critical.recent_vitals) =
      Except.ok [{ name := "HR", value := "80", recorded_at := some 99 }] ∧
    ((summarize c7TieBundle wCfg 100).map fun s => s.critical.recent_vitals) =
      Except.ok [{ name := "HR", value := "80", recorded_at := some 99 }] :=
  C7_recent_vitals wBundle wCfg 100 wCs wSnap rfl rfl

/-- C8: in every snapshot returned by `summarize`, the JSON encoding of the
critical summary carries its five sequence fields as present arrays (possibly
empty, never absent or null), and every encoded CriticalItem carries its
`detail` key (null allowed, never absent). -/
theorem C8_non_null_shape (B : Json) (cfg : SummarizeConfig) (now : Int)
    (s : TimelineSnapshot) (_hs : summarize B cfg now = .ok s) :
    (∃ xs, lookupField (Json.fieldsOf s.critical.toJson) "allergies" =
      some (Json.arr xs)) ∧
    (∃ xs, lookupField (Json.fieldsOf s.critical.toJson) "medications" =
      some (Json.arr xs)) ∧
    (∃ xs, lookupField (Json.fieldsOf s.critical.toJson) "chronic_conditions" =
      some (Json.arr xs)) ∧
    (∃ xs, lookupField (Json.fieldsOf s.critical.toJson) "alerts" =
      some (Json.arr xs)) ∧
    (∃ xs, lookupField (Json.fieldsOf s.critical.toJson) "recent_vitals" =
      some (Json.arr xs)) ∧
    (∀ it ∈ s.critical.allergies ++ s.critical.medications ++
        s.critical.chronic_conditions ++ s.critical.alerts,
      lookupField (Json.fieldsOf it.toJson) "detail" =
        some (encodeOptStr it.detail)) := by
  refine ⟨⟨_, rfl⟩, ⟨_, rfl⟩, ⟨_, rfl⟩, ⟨_, rfl⟩, ⟨_, rfl⟩, ?_⟩
  intro it _
  rfl

/-- C8 witness: the non-null shape conclusions at the concrete bundle
`wBundle`. -/
theorem C8_non_null_shape_witness :
    (∃ xs, lookupField (Json.fieldsOf wSnap.critical.toJson) "allergies" =
      some (Json.arr xs)) ∧
    (∃ xs, lookupField (Json.fieldsOf wSnap.critical.toJson) "medications" =
      some (Json.arr xs)) ∧
    (∃ xs, lookupField (Json.fieldsOf wSnap.critical.toJson) "chronic_conditions" =
      some (Json.arr xs)) ∧
    (∃ xs, lookupField (Json.fieldsOf wSnap.critical.toJson) "alerts" =
      some (Json.arr xs)) ∧
    (∃ xs, lookupField (Json.fieldsOf wSnap.critical.toJson) "recent_vitals" =
      some (Json.arr xs)) ∧
    (∀ it ∈ wSnap.critical.allergies ++ wSnap.critical.medications ++
        wSnap.critical.chronic_conditions ++ wSnap.critical.alerts,
      lookupField (Json.fieldsOf it.toJson) "detail" =
        some (encodeOptStr it.detail)) :=
  C8_non_null_shape wBundle wCfg 100 wSnap rfl

/-- C3 counterexample: two calls over the same bundle and config made at
generation times 1 and 100 both succeed but return different critical
summaries (the vital observation dated 0 is inside the 24-hour window at time
1 and outside it at time 100), refuting the claim that only `generated_at`
may differ. -/
theorem C3_counterexample :
    ((summarize c3Bundle wCfg 1).map fun s => s.critical.recent_vitals) =
      Except.ok [{ name := "HR", value := "80", recorded_at := some 0 }] ∧
    ((summarize c3Bundle wCfg 100).map fun s => s.critical.recent_vitals) =
      Except.ok [] ∧
    ¬ (∀ t₁ t₂ : Int, ∀ s₁ s₂ : TimelineSnapshot,
        summarize c3Bundle wCfg t₁ = .ok s₁ → summarize c3Bundle wCfg t₂ = .ok s₂ →
          s₁.critical = s₂.critical) := by
  refine ⟨rfl, rfl, ?_⟩
  intro hclaim
  have hcrit := hclaim 1 100 _ _ rfl rfl
  have hlen := congrArg (fun c : CriticalSummary => c.recent_vitals.length) hcrit
  exact absurd hlen (by decide)

/-- C3 amended: two calls over the same bundle and config produce identical
`critical` and `events` whenever they observe the same generation time, and
also at any two generation times when no ingested resource carries a
timestamp (the recency windows are the only time-dependence besides
`generated_at`). -/
theorem C3_determinism_amended (B : Json) (cfg : SummarizeConfig) (t₁ t₂ : Int)
    (cs : List ClassifiedResource) (hin : ingest B = .ok cs)
    (ht : t₁ = t₂ ∨ ∀ r ∈ cs, r.timestamp = none) :
    ∃ s₁ s₂, summarize B cfg t₁ = .ok s₁ ∧ summarize B cfg t₂ = .ok s₂ ∧
      s₁.critical = s₂.critical ∧ s₁.events = s₂.events ∧
      s₁.generated_at = t₁ ∧ s₂.generated_at = t₂ := by
  have hs : ∀ t : Int, summarize B cfg t =
      .ok { generated_at := t, critical := extract cs cfg t,
            events := build cs cfg t } := by
    intro t
    simp [summarize, hin]
  refine ⟨_, _, hs t₁, hs t₂, ?_, ?_, rfl, rfl⟩
  · rcases ht with rfl | hnone
    · rfl
    · show extract cs cfg t₁ = extract cs cfg t₂
      have hq : ∀ t : Int, cs.filter (vitalQualifies cfg t) = [] := by
        intro t
        rw [List.filter_eq_nil_iff]
        intro r hr
        unfold vitalQualifies
        rw [hnone r hr]
        simp
      have hrv : recentVitals cs cfg t₁ = recentVitals cs cfg t₂ := by
        unfold recentVitals
        rw [hq t₁, hq t₂]
      unfold extract
      rw [hrv]
  · rcases ht with rfl | hnone
    · rfl
    · show build cs cfg t₁ = build cs cfg t₂
      unfold build buildCandidates
      have hfil : ∀ x ∈ cs,
          (eligible x && windowKeep cfg t₁ x) = (eligible x && windowKeep cfg t₂ x) := by
        intro x hx
        have hw : ∀ t : Int, windowKeep cfg t x = true := by
          intro t
          unfold windowKeep
          rw [hnone x hx]
        rw [hw t₁, hw t₂]
      rw [List.filter_congr hfil]

/-- C3 witness: the amended determinism conclusion at the concrete bundle
`wBundle` with both calls at generation time 5. -/
theorem C3_determinism_witness :
    ∃ s₁ s₂, summarize wBundle wCfg 5 = .ok s₁ ∧ summarize wBundle wCfg 5 = .ok s₂ ∧
      s₁.critical = s₂.critical ∧ s₁.events = s₂.events ∧
      s₁.generated_at = 5 ∧ s₂.generated_at = 5 :=
  C3_determinism_amended wBundle wCfg 5 5 wCs rfl (Or.inl rfl)

end SedsTimeline
